import Mathlib

/-!
Verification of the udisks-rs client core: a shallow embedding of the
relationship-resolution and presentation-synthesis engine (`src/client.rs`,
`src/object_info.rs`, `src/object.rs`, `src/gettext.rs`) together with proofs
about the embedded code.

Modelling conventions:
* A D-Bus property read that returns `error::Result<T>` in Rust is embedded as
  `Res T` (`ok`/`err`); the error payload is never inspected by the code under
  study, so it is dropped.
* A `get_interface!` accessor call (`object.rs`) can succeed, fail because the
  interface is absent (`InterfaceNotFound`), or fail because the underlying
  `get_managed_objects` transport call failed.  It is embedded as
  `IfaceRes T` with the three constructors `present`/`absent`/`failed`.
* Rust `Vec<u8>` device strings plus the `CString::from_vec_with_nul` /
  `to_str` conversion chain are folded into a single `Res String` read: any
  failure in the chain is an `err`.
* A Rust panic (`unwrap`/`expect` on an `Err`/`None`) is modelled by the
  enclosing function returning `none : Option ObjectInfo`.
* Floating point arithmetic in `pow2_size`/`pow10_size` is embedded exactly
  over `ℚ`.  Every comparison performed by the code compares integers (or
  integers divided by powers of ten/two) far below `2^53`, where `f64`
  arithmetic is exact, and no formatted value in any theorem below sits on a
  decimal rounding tie, so the exact model agrees with the binary64 code on
  everything stated here.
* `gettextrs` translation lookups are modelled as the identity on the msgid,
  matching an untranslated locale; the code under study performs no other
  locale-dependent operation.
-/

/-- Result of a single D-Bus property read (`error::Result<T>` in Rust).
The error payload is never inspected by the client code, so it is dropped. -/
inductive Res (α : Type) where
  | ok (val : α)
  | err
  deriving Repr, DecidableEq

namespace Res

/-- Rust `Result::ok()`. -/
def toOption {α : Type} : Res α → Option α
  | .ok v => some v
  | .err => none

/-- Rust `Result::is_ok_and(p)`. -/
def isOkAnd {α : Type} (r : Res α) (p : α → Bool) : Bool :=
  match r with
  | .ok v => p v
  | .err => false

end Res

/-- Outcome of a `get_interface!` accessor call (`object.rs`): the interface is
present, absent (`InterfaceNotFound`), or the snapshot fetch inside the
accessor failed at the transport level. -/
inductive IfaceRes (α : Type) where
  | absent
  | failed
  | present (val : α)
  deriving Repr, DecidableEq

namespace IfaceRes

/-- Rust `Result::ok()` applied to the accessor result: both failure modes
collapse to `none`. -/
def ok? {α : Type} : IfaceRes α → Option α
  | .present v => some v
  | _ => none

/-- Rust `Result::is_ok()` applied to the accessor result. -/
def isPresent {α : Type} : IfaceRes α → Bool
  | .present _ => true
  | _ => false

end IfaceRes

/-! ### Decimal rendering of natural numbers (Rust `{}`/`%u` formatting) -/

/-- The ASCII digit character for `d` (meaningful for `d ≤ 9`). -/
def digChar (d : Nat) : Char := Char.ofNat (48 + d)

/-- Fuel-driven digit expansion: `natDigitsF fuel n` is the decimal digit
list of `n`, most significant first, provided `n ≤ 10 ^ fuel`.  Structural
recursion on the fuel keeps the function kernel-reducible. -/
def natDigitsF : Nat → Nat → List Char
  | 0, n => [digChar n]
  | fuel + 1, n =>
      if n < 10 then [digChar n]
      else natDigitsF fuel (n / 10) ++ [digChar (n % 10)]

/-- Decimal digit list of `n`, most significant first (Rust `u32`/`u64`
display formatting); `n` itself is always enough fuel. -/
def natDigits (n : Nat) : List Char := natDigitsF n n

/-- Decimal string of `n` (Rust `format!("{}", n)` for unsigned `n`). -/
def natDecStr (n : Nat) : String := ⟨natDigits n⟩

/-! ### Lexicographic comparison of strings

`String` comparison in Rust (`Ord for str`) is byte-lexicographic; on the
ASCII sort keys produced by this code it coincides with character-by-character
lexicographic comparison, embedded here as an executable Boolean relation. -/

/-- Lexicographic strict order on character lists. -/
def lexLt : List Char → List Char → Bool
  | [], [] => false
  | [], _ :: _ => true
  | _ :: _, [] => false
  | a :: as, b :: bs => if a < b then true else if b < a then false else lexLt as bs

/-- Lexicographic strict order on strings. -/
def strLt (a b : String) : Bool := lexLt a.data b.data

/-! ### Substring search and replacement (Rust `str::contains`,
`str::replace`, `str::replacen`) -/

/-- `isPre p s` holds when `p` is a prefix of `s`. -/
def isPre : List Char → List Char → Bool
  | [], _ => true
  | _ :: _, [] => false
  | a :: as, b :: bs => a = b && isPre as bs

/-- `containsSubL s pat`: does `s` contain `pat` as a contiguous substring
(Rust `str::contains` with a string pattern)? -/
def containsSubL (s pat : List Char) : Bool :=
  isPre pat s ||
    match s with
    | [] => false
    | _ :: rest => containsSubL rest pat

/-- Rust `s.contains(pat)`. -/
def containsSub (s pat : String) : Bool := containsSubL s.data pat.data

/-- Replace the first occurrence of `pat` in the list with `rep`
(Rust `str::replacen(pat, rep, 1)`; the patterns used by the code are never
empty, and an empty pattern is treated as matching nowhere). -/
def replFirstL (pat rep : List Char) : List Char → List Char
  | [] => []
  | c :: rest =>
    if pat ≠ [] ∧ isPre pat (c :: rest) then rep ++ (c :: rest).drop pat.length
    else c :: replFirstL pat rep rest

/-- Fuel-driven version of replace-all: each consumed unit of fuel removes at
least one character from the front of the list, so `s.length` fuel always
suffices.  Structural recursion on the fuel keeps the function
kernel-reducible. -/
def replAllF (pat rep : List Char) : Nat → List Char → List Char
  | _, [] => []
  | 0, s => s
  | fuel + 1, c :: rest =>
      if pat ≠ [] ∧ isPre pat (c :: rest) then
        rep ++ replAllF pat rep fuel ((c :: rest).drop pat.length)
      else c :: replAllF pat rep fuel rest

/-- Replace every (left-to-right, non-overlapping) occurrence of `pat` in the
list with `rep` (Rust `str::replace`; the patterns used by the code are never
empty, and an empty pattern is treated as matching nowhere). -/
def replAllL (pat rep : List Char) (s : List Char) : List Char :=
  replAllF pat rep s.length s

/-- Rust `s.replacen(pat, rep, 1)` on `String`. -/
def replFirstS (s pat rep : String) : String := ⟨replFirstL pat.data rep.data s.data⟩

/-- Rust `s.replace(pat, rep)` on `String`. -/
def replAllS (s pat rep : String) : String := ⟨replAllL pat.data rep.data s.data⟩

/-! ### The gettext layer (`src/gettext.rs`), modelled with identity
translation lookup -/

/-- `gettextrs::pgettext`: translation lookup, identity in the untranslated
locale. -/
def pgettext (_msgctxt msgid : String) : String := msgid

/-- `gettextrs::gettext`: translation lookup, identity in the untranslated
locale. -/
def gettext (msgid : String) : String := msgid

/-- `dpgettext` from `src/gettext.rs`: domain translation lookup, identity in
the untranslated locale. -/
def dpgettext (_msgctxt msgid : String) : String := msgid

/-- `arg_replace` from `src/gettext.rs`: substitute each argument for the
first remaining `%s`. -/
def arg_replace (s : String) (args : List String) : String :=
  args.foldl (fun s a => replFirstS s "%s" a) s

/-- `pgettext_f` from `src/gettext.rs`: rewrite `{}` placeholders to `%s`,
translate (identity), then substitute the arguments. -/
def pgettext_f (msgctxt format : String) (args : List String) : String :=
  arg_replace (pgettext msgctxt (replAllS format "{}" "%s")) args

/-- `gettext_f` from `src/gettext.rs`. -/
def gettext_f (format : String) (args : List String) : String :=
  arg_replace (gettext (replAllS format "{}" "%s")) args

/-! ### Size formatting (`Client::pow2_size`, `Client::pow10_size`) -/

/-- Round to the nearest integer, halves up.  The concrete values formatted in
the theorems below never sit on a rounding tie, where this could differ from
the binary64 rendering. -/
def roundNearest (q : ℚ) : Int := ⌊q + 1 / 2⌋

/-- Rust `format!("{:.digits$}", q)` for a non-negative value and
`digits ∈ {0, 1}`, the only two cases the code produces. -/
def fmtF (digits : Nat) (q : ℚ) : String :=
  if digits = 0 then natDecStr (roundNearest q).toNat
  else
    let scaled := (roundNearest (q * 10)).toNat
    natDecStr (scaled / 10) ++ "." ++ natDecStr (scaled % 10)

def KILOBYTE_FACTOR : ℚ := 1000
def MEGABYTE_FACTOR : ℚ := 1000 * 1000
def GIGABYTE_FACTOR : ℚ := 1000 * 1000 * 1000
def TERABYTE_FACTOR : ℚ := 1000 * 1000 * 1000 * 1000

def KIBIBYTE_FACTOR : ℚ := 1024
def MEBIBYTE_FACTOR : ℚ := 1024 * 1024
def GIBIBYTE_FACTOR : ℚ := 1024 * 1024 * 1024
/-- The constant exactly as written in `src/client.rs` line 25:
`1024.0 * 1024.0 * 1024.0 * 10242.0` (note the `10242.0`). -/
def TEBIBYTE_FACTOR : ℚ := 1024 * 1024 * 1024 * 10242

/-- `Client::pow2_size` from `src/client.rs`. -/
def pow2_size (size : Nat) : String :=
  let s : ℚ := size
  let p : ℚ × String :=
    if s < MEBIBYTE_FACTOR then (s / KIBIBYTE_FACTOR, pgettext "byte-size-pow2" "KiB")
    else if s < GIBIBYTE_FACTOR then (s / MEBIBYTE_FACTOR, pgettext "byte-size-pow2" "MiB")
    else if s < TEBIBYTE_FACTOR then (s / GIBIBYTE_FACTOR, pgettext "byte-size-pow2" "GiB")
    else (s / TEBIBYTE_FACTOR, pgettext "byte-size-pow2" "TiB")
  let digits := if p.1 < 10 then 1 else 0
  fmtF digits p.1 ++ " " ++ p.2

/-- `Client::pow10_size` from `src/client.rs`. -/
def pow10_size (size : Nat) : String :=
  let s : ℚ := size
  let p : ℚ × String :=
    if s < MEGABYTE_FACTOR then (s / KILOBYTE_FACTOR, pgettext "byte-size-pow10" "KB")
    else if s < GIGABYTE_FACTOR then (s / MEGABYTE_FACTOR, pgettext "byte-size-pow10" "MB")
    else if s < TERABYTE_FACTOR then (s / GIGABYTE_FACTOR, pgettext "byte-size-pow10" "GB")
    else (s / TERABYTE_FACTOR, pgettext "byte-size-pow10" "TB")
  let digits := if p.1 < 10 then 1 else 0
  fmtF digits p.1 ++ " " ++ p.2

/-- `Client::size_for_display` from `src/client.rs`. -/
def size_for_display (size : Nat) (use_pow2 long_str : Bool) : String :=
  let pow_size := if use_pow2 then pow2_size size else pow10_size size
  if !long_str then pow_size
  else if use_pow2 then
    pgettext_f "byte-size-pow2" "{} ({} bytes)" [pow_size, natDecStr size]
  else
    pgettext_f "byte-size-pow10" "{} ({} bytes)" [pow_size, natDecStr size]

/-! ### The object snapshot data model

One structure per capability interface, with one `Res` field per property the
client code reads.  An `Obj` is one entry of the managed-object snapshot; a
snapshot is the list of entries in provider scan order. -/

/-- Object identifier: an opaque hierarchical path string. -/
abbrev ObjPath := String

/-- The `org.freedesktop.UDisks2.Block` properties read by the client code
(`src/block.rs`).  `mdraid` is the `MDRaid` property ("this block *is* the
running raid device of"), `mdraidMember` the `MDRaidMember` property ("this
block *is a member* of"). -/
structure BlockIface where
  drive : Res ObjPath := .err
  mdraid : Res ObjPath := .err
  mdraidMember : Res ObjPath := .err
  size : Res Nat := .err
  preferredDevice : Res String := .err
  hintName : Res String := .err
  hintIconName : Res String := .err
  hintSymbolicIconName : Res String := .err
  cryptoBackingDevice : Res ObjPath := .err
  deriving Repr, DecidableEq

/-- `RotationRate` from `src/drive.rs`; `NonRotating` is the `Default`. -/
inductive RotationRate where
  | unknown
  | nonRotating
  | rotating (rpm : Int)
  deriving Repr, DecidableEq

/-- The `org.freedesktop.UDisks2.Drive` properties read by the client code
(`src/drive.rs`).  `MediaCompatibility` values are modelled by their
snake_case wire strings. -/
structure DriveIface where
  vendor : Res String := .err
  model : Res String := .err
  revision : Res String := .err
  size : Res Nat := .err
  mediaRemovable : Res Bool := .err
  mediaAvailable : Res Bool := .err
  media : Res String := .err
  mediaCompatibility : Res (List String) := .err
  rotationRate : Res RotationRate := .err
  connectionBus : Res String := .err
  opticalBlank : Res Bool := .err
  opticalNumAudioTracks : Res Nat := .err
  opticalNumDataTracks : Res Nat := .err
  siblingId : Res String := .err
  sortKey : Res String := .err
  deriving Repr, DecidableEq

/-- `RaidLevel` from `src/manager.rs`.  `other` stands for any further wire
value; `MDRaidProxy::level` can also fail, covered by `Res`. -/
inductive RaidLevel where
  | raid0 | raid1 | raid4 | raid5 | raid6 | raid10
  | other
  deriving Repr, DecidableEq

/-- The `org.freedesktop.UDisks2.MDRaid` properties read by the client code
(`src/mdraid.rs`). -/
structure MDRaidIface where
  name : Res String := .err
  level : Res RaidLevel := .err
  size : Res Nat := .err
  uuid : Res String := .err
  deriving Repr, DecidableEq

/-- The `org.freedesktop.UDisks2.Partition` properties read by the client code
(`src/partition.rs`). -/
structure PartitionIface where
  number : Res Nat := .err
  table : Res ObjPath := .err
  deriving Repr, DecidableEq

/-- The `org.freedesktop.UDisks2.Job` properties read by the client code
(`src/job.rs`). -/
structure JobIface where
  objects : Res (List ObjPath) := .err
  deriving Repr, DecidableEq

/-- The `org.freedesktop.UDisks2.Loop` properties read by the client code
(`src/loop.rs`). -/
structure LoopIface where
  backingFile : Res String := .err
  deriving Repr, DecidableEq

/-- One entry of the managed-object snapshot: the object path together with
the outcome of each interface accessor on it. -/
structure Obj where
  path : ObjPath
  block : IfaceRes BlockIface := .absent
  drive : IfaceRes DriveIface := .absent
  mdraid : IfaceRes MDRaidIface := .absent
  partition : IfaceRes PartitionIface := .absent
  job : IfaceRes JobIface := .absent
  loopIface : IfaceRes LoopIface := .absent
  deriving Repr, DecidableEq

/-- The managed-object snapshot, in provider scan order. -/
abbrev Snapshot := List Obj

/-- Resolve an object path against the snapshot (the
`objects.get(&self.path)` step of `get_interface!` in `src/object.rs`). -/
def findObj (snap : Snapshot) (p : ObjPath) : Option Obj :=
  snap.find? (fun o => o.path = p)

/-! ### The relationship resolver (`src/client.rs`) -/

/-- `Client::jobs_for_object`: scan every object; for each one whose `Job`
interface is available, keep the entries of its affected-objects list that
equal the target's path.  Note the returned paths are the matching *affected*
paths, not the paths of the job objects. -/
def jobs_for_object (snap : Snapshot) (objectPath : ObjPath) : List ObjPath :=
  snap.foldl
    (fun blocks o =>
      match o.job with
      | .present j =>
          blocks ++ ((j.objects.toOption.getD []).filter (fun p => p = objectPath))
      | _ => blocks)
    []

/-- `Client::top_level_blocks_for_drive`: all objects whose `Block` interface
is available, whose drive reference reads `Ok` and equal to the drive's path,
and whose `Partition` accessor fails. -/
def top_level_blocks_for_drive (snap : Snapshot) (drive_object_path : ObjPath) : List Obj :=
  snap.filter
    (fun o =>
      match o.block with
      | .present b => b.drive = .ok drive_object_path && !o.partition.isPresent
      | _ => false)

/-- `Client::block_for_drive`: the first top-level block of the drive whose
`Block` accessor succeeds (`_physical` is accepted and ignored, as in the
source). -/
def block_for_drive (snap : Snapshot) (drivePath : ObjPath) (_physical : Bool) :
    Option BlockIface :=
  (top_level_blocks_for_drive snap drivePath).findSome? (fun o => o.block.ok?)

/-- `Client::drive_for_block`: read the block's drive reference, resolve the
path, and bind its `Drive` interface.  Any failure (unreadable property,
unknown path, interface absent) is an error. -/
def drive_for_block (snap : Snapshot) (block : BlockIface) :
    Res (ObjPath × DriveIface) :=
  match block.drive with
  | .err => .err
  | .ok p =>
      match findObj snap p with
      | none => .err
      | some o =>
          match o.drive with
          | .present d => .ok (p, d)
          | _ => .err

/-- `Client::mdraid_for_block`: read the block's `MDRaid` reference, resolve
the path, and bind its `MDRaid` interface. -/
def mdraid_for_block (snap : Snapshot) (block : BlockIface) :
    Res (ObjPath × MDRaidIface) :=
  match block.mdraid with
  | .err => .err
  | .ok p =>
      match findObj snap p with
      | none => .err
      | some o =>
          match o.mdraid with
          | .present m => .ok (p, m)
          | _ => .err

/-- `Client::cleartext_block`: first object whose `Block` interface is
available and whose crypto-backing-device reference reads `Ok` and equal to
the given block's path. -/
def cleartext_block (snap : Snapshot) (blockPath : ObjPath) : Option BlockIface :=
  snap.findSome?
    (fun o =>
      match o.block with
      | .present b => if b.cryptoBackingDevice = .ok blockPath then some b else none
      | _ => none)

/-- `Client::drive_siblings`: empty when the sibling id is unreadable or
empty; otherwise every drive whose sibling id reads `Ok` and equal (the
queried drive itself is *not* excluded, per the TODO in the source). -/
def drive_siblings (snap : Snapshot) (drive : DriveIface) : List DriveIface :=
  match drive.siblingId with
  | .err => []
  | .ok sibling_id =>
      if sibling_id = "" then []
      else
        snap.foldr
          (fun o acc =>
            match o.drive with
            | .present d => if d.siblingId = .ok sibling_id then d :: acc else acc
            | _ => acc)
          []

/-- `Client::block_or_blocks_for_mdraid` from `src/client.rs` lines 427-475,
including the branch exactly as written there: when `members` is true the
`MDRaid` ("is the raid device") property is compared, when false the
`MDRaidMember` ("is a member") property. -/
def block_or_blocks_for_mdraid (snap : Snapshot) (raidPath : ObjPath)
    (members only_first_one skip_partitions : Bool) : List (ObjPath × BlockIface) :=
  match snap with
  | [] => []
  | o :: rest =>
      match o.block with
      | .present block =>
          if skip_partitions && o.partition.isPresent then
            block_or_blocks_for_mdraid rest raidPath members only_first_one skip_partitions
          else
            let block_objpath := if members then block.mdraid else block.mdraidMember
            if block_objpath = .ok raidPath then
              if only_first_one then [(o.path, block)]
              else
                (o.path, block) ::
                  block_or_blocks_for_mdraid rest raidPath members only_first_one skip_partitions
            else block_or_blocks_for_mdraid rest raidPath members only_first_one skip_partitions
      | _ => block_or_blocks_for_mdraid rest raidPath members only_first_one skip_partitions

/-- `Client::block_for_mdraid`: first match, `members=false`, partitions
skipped. -/
def block_for_mdraid (snap : Snapshot) (raidPath : ObjPath) :
    Option (ObjPath × BlockIface) :=
  (block_or_blocks_for_mdraid snap raidPath false true true).head?

/-- `Client::all_blocks_for_mdraid`: all matches, `members=false`, partitions
skipped. -/
def all_blocks_for_mdraid (snap : Snapshot) (raidPath : ObjPath) :
    List (ObjPath × BlockIface) :=
  block_or_blocks_for_mdraid snap raidPath false false true

/-- `Client::members_for_mdraid`: all matches, `members=true`, partitions not
skipped. -/
def members_for_mdraid (snap : Snapshot) (raidPath : ObjPath) :
    List (ObjPath × BlockIface) :=
  block_or_blocks_for_mdraid snap raidPath true false false

/-! ### The presentation synthesizer (`src/object_info.rs`) -/

/-- `Icon` from `src/object_info.rs`. -/
structure Icon where
  name : Option String := none
  nameSymbolic : Option String := none
  deriving Repr, DecidableEq

/-- `Icon::set_if_none` (`get_or_insert` on both fields). -/
def Icon.set_if_none (i : Icon) (icon icon_symbolic : String) : Icon :=
  { name := some (i.name.getD icon), nameSymbolic := some (i.nameSymbolic.getD icon_symbolic) }

/-- `ObjectInfo` from `src/object_info.rs`; the borrowed `object` field is
represented by its path. -/
structure ObjectInfo where
  path : ObjPath
  name : Option String := none
  description : Option String := none
  icon : Icon := {}
  mediaDescription : Option String := none
  mediaIcon : Icon := {}
  oneLiner : Option String := none
  sortKey : Option String := none
  deriving Repr, DecidableEq

/-- Rust `s.split(sep).next_back().unwrap()`: the segment after the last
separator (the whole string when the separator does not occur). -/
def lastSegBy (sep : Char) (s : String) : String :=
  ⟨s.data.foldl (fun acc c => if c = sep then [] else acc ++ [c]) []⟩

/-- `ObjectInfo::format_level` from `src/object_info.rs`. -/
def format_level (level : Res RaidLevel) : String :=
  pgettext "mdraid-desc" <|
    match level with
    | .ok .raid0 => "RAID-0 Array"
    | .ok .raid1 => "RAID-1 Array"
    | .ok .raid4 => "RAID-4 Array"
    | .ok .raid5 => "RAID-5 Array"
    | .ok .raid6 => "RAID-6 Array"
    | .ok .raid10 => "RAID-10 Array"
    | _ => "RAID Array"

/-- `ObjectInfo::info_for_block` from `src/object_info.rs`.  `none` models a
panic: the `expect` on an unreadable partition number, or the `unwrap` of
`self.name` in the one-liner when the preferred device was unreadable. -/
def info_for_block (selfPath : ObjPath) (block : BlockIface)
    (partition : Option (ObjPath × PartitionIface)) : Option ObjectInfo := do
  let icon : Icon := ⟨some "drive-removable-media", some "drive-removable-media-symbolic"⟩
  let name := block.preferredDevice.toOption
  let description :=
    match block.size with
    | .ok size => gettext_f "{} Block Device" [size_for_display size false false]
    | .err => gettext "Block Device"
  let pw? : Option (String × Option Nat) :=
    match partition with
    | some (_, p) =>
        match p.number.toOption with
        | some n =>
            some (replAllS (pgettext_f "part-block" "Partition %u of {}" [description])
              "%u" (natDecStr n), some n)
        | none => none
    | none => some (description, (none : Option Nat))
  let pw ← pw?
  let nm ← name
  let one_liner := pgettext_f "one-liner-block" "{} ({})" [pw.1, nm]
  let sort_key := "02_block_" ++ lastSegBy '/' selfPath ++ "_" ++ natDecStr (pw.2.getD 0)
  some { path := selfPath, name := name, description := some pw.1, icon := icon,
         mediaDescription := none, mediaIcon := {}, oneLiner := some one_liner,
         sortKey := some sort_key }

/-- `ObjectInfo::info_for_loop` from `src/object_info.rs`.  `none` models a
panic, as for `info_for_block` (with the backing file in place of the
preferred device for the name). -/
def info_for_loop (selfPath : ObjPath) (loop_proxy : LoopIface) (block : BlockIface)
    (partition : Option (ObjPath × PartitionIface)) : Option ObjectInfo := do
  let icon : Icon := ⟨some "drive-removable-media", some "drive-removable-media-symbolic"⟩
  let name := loop_proxy.backingFile.toOption
  let description :=
    match block.size with
    | .ok size => gettext_f "{} Loop Device" [size_for_display size false false]
    | .err => gettext "Loop Device"
  let pw? : Option (String × Option Nat) :=
    match partition with
    | some (_, p) =>
        match p.number.toOption with
        | some n =>
            some (replAllS (pgettext_f "part-loop" "Partition %u of {}" [description])
              "%u" (natDecStr n), some n)
        | none => none
    | none => some (description, (none : Option Nat))
  let pw ← pw?
  let nm ← name
  let one_liner := pgettext_f "one-liner-loop" "{} — {} ({})"
    [pw.1, nm, block.preferredDevice.toOption.getD ""]
  let sort_key := "03_loop_" ++ lastSegBy '/' selfPath ++ "_" ++ natDecStr (pw.2.getD 0)
  some { path := selfPath, name := name, description := some pw.1, icon := icon,
         mediaDescription := none, mediaIcon := {}, oneLiner := some one_liner,
         sortKey := some sort_key }

/-- `ObjectInfo::info_for_mdraid` from `src/object_info.rs`.  `none` models a
panic: the `expect`s on an unreadable partition number, on the preferred
device of the raid's running block, or on the raid's uuid.  The partition
wrapping passes `[number, description]` to a single-placeholder template,
exactly as the source does. -/
def info_for_mdraid (snap : Snapshot) (selfPath raidPath : ObjPath) (mdraid : MDRaidIface)
    (partition : Option (ObjPath × PartitionIface)) : Option ObjectInfo := do
  let name := mdraid.name.toOption.getD ""
  let dispName := lastSegBy ':' name
  let icon : Icon := ⟨some "drive-multidisk", some "drive-multidisk-symbolic"⟩
  let level := mdraid.level
  let description :=
    match mdraid.size with
    | .ok size =>
        pgettext_f "mdraid-desc" "{} {}" [size_for_display size false false, format_level level]
    | .err => format_level level
  let pw? : Option (String × Option Nat) :=
    match partition with
    | some (_, p) =>
        match p.number.toOption with
        | some n =>
            some (replAllS
              (pgettext_f "part-raid" "Partition %u of {}" [natDecStr n, description])
              "%u" (natDecStr n), some n)
        | none => none
    | none => some (description, (none : Option Nat))
  let pw ← pw?
  let block := block_for_mdraid snap raidPath
  let one_liner? : Option String :=
    if dispName ≠ "" then
      match block with
      | some (_, blk) =>
          match blk.preferredDevice.toOption with
          | some preferred_device =>
              some (pgettext_f "one-liner-mdraid-running" "{} — {} ({})"
                [dispName, pw.1, preferred_device])
          | none => none
      | none =>
          some (pgettext_f "one-liner-mdraid-not-running" "{} — {}" [dispName, pw.1])
    else
      match block with
      | some (_, blk) =>
          match blk.preferredDevice.toOption with
          | some preferred_device =>
              some (pgettext_f "one-liner-mdraid-no-name-running" "{} — {}"
                [pw.1, preferred_device])
          | none => none
      | none => some (pgettext_f "one-liner-mdraid-no-name-not-running" "{}" [pw.1])
  let one_liner ← one_liner?
  let uuid ← mdraid.uuid.toOption
  let sort_key := "01_mdraid_" ++ uuid ++ "_" ++ natDecStr (pw.2.getD 0)
  some { path := selfPath, name := some dispName, description := some pw.1, icon := icon,
         mediaDescription := none, mediaIcon := {}, oneLiner := some one_liner,
         sortKey := some sort_key }

/-- The drive presentation's media kind (`media::DriveType`). -/
inductive DriveType where
  | drive | disk | card | disc
  deriving Repr, DecidableEq

/-- Modelled from the spec: one row of the static media table scanned by the
drive presentation (`media::MEDIA_DATA`; the file `media.rs` is not under
`src/`).  Per §4.3 of the spec a row carries the media code, a display name,
a family string, the media kind, and icon pairs for the drive and for the
medium.  Every theorem below holds for an arbitrary table, which is passed
as a parameter. -/
structure MediaData where
  id : String
  mediaName : String
  mediaFamily : String
  mediaType : DriveType
  driveIcon : String
  driveIconSymbolic : String
  mediaIcon : String
  mediaIconSymbolic : String
  deriving Repr, DecidableEq

/-- Accumulator of the `for media_data in media::MEDIA_DATA` loop in
`ObjectInfo::info_for_drive`. -/
structure DriveScan where
  icon : Icon
  desc : String
  descType : Option DriveType
  mediaDescription : Option String
  mediaIcon : Icon
  deriving Repr, DecidableEq

/-- One iteration of the media-table loop in `ObjectInfo::info_for_drive`. -/
def drive_media_step (media_compat : List String) (media_removable media_available : Bool)
    (media : String) (st : DriveScan) (media_data : MediaData) : DriveScan :=
  let st :=
    if media_compat.contains media_data.id then
      { st with
        icon := st.icon.set_if_none media_data.driveIcon media_data.driveIconSymbolic
        desc :=
          if !containsSub st.desc media_data.mediaFamily then
            (if !(st.desc = "") then st.desc ++ "/" else st.desc) ++
              pgettext "media-type" media_data.mediaFamily
          else st.desc
        descType := some media_data.mediaType }
    else st
  if media_removable && media_available && media = media_data.id then
    { st with
      mediaDescription :=
        match st.mediaDescription with
        | none =>
            some (match media_data.mediaType with
              | .drive => pgettext_f "drive-with-fixed-media" "{} Drive"
                  [dpgettext "media-type" media_data.mediaName]
              | .disk => pgettext_f "drive-with-generic-media" "{} Disk"
                  [dpgettext "media-type" media_data.mediaName]
              | .card => pgettext_f "flash-media" "{} Card"
                  [dpgettext "media-type" media_data.mediaName]
              | .disc => pgettext_f "optical-media" "{} Disc"
                  [dpgettext "media-type" media_data.mediaName])
        | some d => some d
      mediaIcon := st.mediaIcon.set_if_none media_data.mediaIcon media_data.mediaIconSymbolic }
  else st

/-- `ObjectInfo::info_for_drive` from `src/object_info.rs`.  `none` models a
panic: the `unwrap` on the unreadable `media` property (line 429), or the
`unwrap` of `block_for_partition` in the one-liner (unreachable there).  The
hint triple is read from the drive's top-level block when present; with no
block, no hint applies, matching the `if let Some(ref block)` guard.  The
source recomputes the media icon fallback strings verbatim; here the equal
`icon_fallback`/`icon_symbolic_fallback` values are reused. -/
def info_for_drive (table : List MediaData) (snap : Snapshot)
    (selfPath drivePath : ObjPath) (drive : DriveIface)
    (partition : Option (ObjPath × PartitionIface)) : Option ObjectInfo :=
  match drive.media with
  | .err => none
  | .ok media =>
    let vendor := drive.vendor.toOption.getD ""
    let name := vendor ++ (if vendor = "" then "" else " ") ++ drive.model.toOption.getD ""
    let media_removable := drive.mediaRemovable.toOption.getD false
    let media_available := drive.mediaAvailable.toOption.getD false
    let media_compat := drive.mediaCompatibility.toOption.getD []
    let st := table.foldl
      (drive_media_step media_compat media_removable media_available media)
      ⟨{}, "", none, none, {}⟩
    let size := drive.size.toOption.map (fun s => size_for_display s false false)
    let rotation_rate := drive.rotationRate.toOption.getD .nonRotating
    let description :=
      match st.descType with
      | none =>
          if media_removable then
            match size with
            | some size => pgettext_f "drive-with-size" "{} Drive" [size]
            | none => pgettext "generic-drive" "Drive"
          else if rotation_rate = .nonRotating then
            match size with
            | some size => pgettext_f "disk-non-rotational" "{} Disk" [size]
            | none => pgettext "disk-non-rotational" "Disk"
          else
            match size with
            | some size => pgettext_f "disk-hdd" "{} Hard Disk" [size]
            | none => pgettext "disk-hdd" "Hard Disk"
      | some .card => pgettext_f "drive-card-reader" "{} Card Reader" [st.desc]
      | some _ =>
          match size with
          | some s =>
              if !media_removable then
                pgettext_f "drive-with-size-and-type" "{} {} Drive" [s, st.desc]
              else pgettext_f "drive-with-type" "{} Drive" [st.desc]
          | none => pgettext_f "drive-with-type" "{} Drive" [st.desc]
    let hyphenated_connection_bus :=
      match drive.connectionBus.toOption with
      | some bus => if bus = "" then "" else "-" ++ bus
      | none => ""
    let icon_fallback :=
      if media_removable then "drive-removable-media" ++ hyphenated_connection_bus
      else if rotation_rate = .nonRotating then
        "drive-harddisk-solidstate" ++ hyphenated_connection_bus
      else "drive-harddisk" ++ hyphenated_connection_bus
    let icon_symbolic_fallback :=
      if media_removable then "drive-removable-media" ++ hyphenated_connection_bus ++ "-symbolic"
      else if rotation_rate = .nonRotating then
        "drive-harddisk-solidstate" ++ hyphenated_connection_bus ++ "-symbolic"
      else "drive-harddisk" ++ hyphenated_connection_bus ++ "-symbolic"
    let icon := st.icon.set_if_none icon_fallback icon_symbolic_fallback
    let mediaIcon :=
      if media_available then st.mediaIcon.set_if_none icon_fallback icon_symbolic_fallback
      else st.mediaIcon
    let media_description := st.mediaDescription
    let media_description :=
      if drive.opticalBlank.toOption.getD false then
        some (pgettext_f "optical-media" "Blank {}" [media_description.getD ""])
      else if drive.opticalNumAudioTracks.isOkAnd (fun t => decide (0 < t)) &&
          drive.opticalNumDataTracks.isOkAnd (fun t => decide (0 < t)) then
        some (pgettext_f "optical-media" "Mixed {}" [media_description.getD ""])
      else if drive.opticalNumAudioTracks.isOkAnd (fun t => decide (0 < t)) &&
          drive.opticalNumDataTracks.isOkAnd (fun t => decide (t = 0)) then
        some (pgettext_f "optical-media" "Audio {}" [media_description.getD ""])
      else media_description
    let block := block_for_drive snap drivePath true
    let hints :=
      match block with
      | some b => (b.hintName, b.hintIconName, b.hintSymbolicIconName)
      | none => ((.err : Res String), (.err : Res String), (.err : Res String))
    let dm :=
      match hints.1 with
      | .ok hint => if hint ≠ "" then (hint, some hint) else (description, media_description)
      | .err => (description, media_description)
    let description := dm.1
    let media_description := dm.2
    let im :=
      match hints.2.1 with
      | .ok hint_icon =>
          if hint_icon ≠ "" then
            ({ icon with name := some hint_icon }, { mediaIcon with name := some hint_icon })
          else (icon, mediaIcon)
      | .err => (icon, mediaIcon)
    let icon := im.1
    let mediaIcon := im.2
    let im2 :=
      match hints.2.2 with
      | .ok hint_icon_symbolic =>
          if hint_icon_symbolic ≠ "" then
            ({ icon with nameSymbolic := some hint_icon_symbolic },
             { mediaIcon with nameSymbolic := some hint_icon_symbolic })
          else (icon, mediaIcon)
      | .err => (icon, mediaIcon)
    let icon := im2.1
    let mediaIcon := im2.2
    let block_for_partition :=
      match partition with
      | some (pp, _) => (findObj snap pp).bind (fun o => o.block.ok?)
      | none => none
    let block_for_partition :=
      match block_for_partition with
      | some b => some b
      | none => block
    let description :=
      match partition with
      | some (_, p) =>
          replAllS (pgettext_f "part-drive" "Partition %u of {}" [description])
            "%u" (natDecStr (p.number.toOption.getD 0))
      | none => description
    let one_liner? : Option (Option String) :=
      match block with
      | some blk =>
          match drive.revision with
          | .ok drive_revision =>
              some (some (pgettext_f "one-liner-drive" "{} — {} [{}] ({})"
                [description, name, drive_revision, blk.preferredDevice.toOption.getD ""]))
          | .err =>
              match block_for_partition with
              | some bfp =>
                  some (some (pgettext_f "one-liner-drive" "{} — {} ({})"
                    [description, name, bfp.preferredDevice.toOption.getD ""]))
              | none => none
      | none => some none
    one_liner?.map fun one_liner =>
      { path := selfPath, name := some name, description := some description,
        icon := icon, mediaDescription := media_description, mediaIcon := mediaIcon,
        oneLiner := one_liner,
        sortKey := some ("00_drive_" ++ drive.sortKey.toOption.getD "") }

/-- `Client::object_info` from `src/client.rs`: capability dispatch in the
fixed priority order drive, raid, block (drive-backed, raid-backed, loop,
plain).  The partition accessor's result is turned into an `Option` with
`.ok()`, so its failure is indistinguishable from absence from here on. -/
def object_info (table : List MediaData) (snap : Snapshot) (object : Obj) :
    Option ObjectInfo :=
  match object.drive with
  | .present drive => info_for_drive table snap object.path object.path drive none
  | _ =>
    match object.mdraid with
    | .present mdraid => info_for_mdraid snap object.path object.path mdraid none
    | _ =>
      match object.block with
      | .present block =>
          let partition := object.partition.ok?.map (fun p => (object.path, p))
          match drive_for_block snap block with
          | .ok (drivePath, drive) =>
              info_for_drive table snap object.path drivePath drive partition
          | .err =>
            match mdraid_for_block snap block with
            | .ok (raidPath, mdraid) =>
                info_for_mdraid snap object.path raidPath mdraid partition
            | .err =>
              match object.loopIface with
              | .present loop_proxy =>
                  info_for_loop object.path loop_proxy block partition
              | _ => info_for_block object.path block partition
      | _ => some { path := object.path }

/-! ### Concrete snapshots used by the evaluation theorems

Sizes are left unreadable in these fixtures whenever they are irrelevant to
the property at stake, so that all presentation output stays within the
kernel-reducible fragment. -/

/-- A running raid device block: its `MDRaid` property points at `/r`. -/
def raidDeviceBlock : BlockIface := { mdraid := .ok "/r" }

/-- A raid member block: its `MDRaidMember` property points at `/r`. -/
def raidMemberBlock : BlockIface := { mdraidMember := .ok "/r" }

/-- Snapshot with one running raid device (`/md0`) and one member (`/sda`)
of the raid object `/r`. -/
def raidSnap : Snapshot :=
  [ { path := "/md0", block := .present raidDeviceBlock },
    { path := "/sda", block := .present raidMemberBlock } ]

/-- A raid whose size is unreadable and whose level is RAID-5. -/
def wrapRaid : MDRaidIface := { level := .ok .raid5, uuid := .ok "u" }

/-- A partition interface whose number reads 3. -/
def wrapPart : PartitionIface := { number := .ok 3 }

/-- Snapshot with a single job object `/jobs/j1` affecting
`/block_devices/sda`. -/
def jobSnap : Snapshot :=
  [ { path := "/jobs/j1", job := .present { objects := .ok ["/block_devices/sda"] } },
    { path := "/block_devices/sda", block := .present {} } ]

/-- A drive with an unreadable `media` property (everything else readable). -/
def unreadableMediaDrive : DriveIface :=
  { vendor := .ok "V", model := .ok "M", media := .err,
    mediaRemovable := .ok false, mediaAvailable := .ok false,
    mediaCompatibility := .ok [], rotationRate := .ok .nonRotating,
    sortKey := .ok "k" }

/-- A raid with an unreadable `uuid` property. -/
def unreadableUuidRaid : MDRaidIface :=
  { name := .ok "", level := .ok .raid0, uuid := .err }

/-- A raid that is running (`/md0` matches as its raid device via the
`MDRaidMember` comparison the code performs) whose device block has an
unreadable preferred-device property. -/
def unreadablePreferredRaid : MDRaidIface :=
  { name := .ok "n", level := .ok .raid0, uuid := .ok "u" }

/-- Snapshot for `unreadablePreferredRaid`: one block matched by
`block_for_mdraid` (via `MDRaidMember`, as the code compares) with an
unreadable preferred device. -/
def unreadablePreferredSnap : Snapshot :=
  [ { path := "/md0", block := .present { mdraidMember := .ok "/r" } } ]

/-- The top-level block of `hintedDrive`, carrying all three non-empty
presentation hints. -/
def hintedBlock : BlockIface :=
  { drive := .ok "/d", preferredDevice := .ok "/dev/sdb",
    hintName := .ok "Banana", hintIconName := .ok "icon-x",
    hintSymbolicIconName := .ok "icon-x-sym" }

/-- A vendor+model drive whose top-level block carries hints. -/
def hintedDrive : DriveIface :=
  { vendor := .ok "ACME", model := .ok "Disk9000", media := .ok "" }

/-- Snapshot with `hintedDrive` at `/d` and its hinted top-level block. -/
def hintedSnap : Snapshot :=
  [ { path := "/d", drive := .present hintedDrive },
    { path := "/b", block := .present hintedBlock } ]

/-- A block whose partition-dispatch outcome is the point of interest. -/
def dispatchBlock : BlockIface := { preferredDevice := .ok "/dev/x" }

/-- The dispatched object with a chosen partition-accessor outcome. -/
def dispatchObj (pr : IfaceRes PartitionIface) : Obj :=
  { path := "/b", block := .present dispatchBlock, partition := pr }

/-- A drive with a readable sort key and media (sizes unreadable). -/
def sortKeyDrive : DriveIface := { media := .ok "", sortKey := .ok "k" }

/-- A partition interface whose number reads 1. -/
def onePart : PartitionIface := { number := .ok 1 }

/-- A drive whose sibling id reads `"shared-sib"`. -/
def soloDrive : DriveIface := { siblingId := .ok "shared-sib" }

/-- Snapshot holding only (an object exposing) `soloDrive` itself. -/
def soloSnap : Snapshot := [ { path := "/d", drive := .present soloDrive } ]

/-- A loop interface with a readable backing file. -/
def loopFixture : LoopIface := { backingFile := .ok "/f.img" }

/-- The presentation produced for `hintedDrive` over `hintedSnap` (used to
state closed facts about the hinted run). -/
def hintedOut : ObjectInfo :=
  { path := "/d", name := some "ACME Disk9000", description := some "Banana",
    icon := ⟨some "icon-x", some "icon-x-sym"⟩, mediaDescription := some "Banana",
    mediaIcon := ⟨some "icon-x", some "icon-x-sym"⟩,
    oneLiner := some "Banana — ACME Disk9000 (/dev/sdb)", sortKey := some "00_drive_" }

/-- Output of the drive presentation for `sortKeyDrive`, no partition. -/
def driveOut0 : ObjectInfo :=
  { path := "/d", name := some "", description := some "Disk",
    icon := ⟨some "drive-harddisk-solidstate", some "drive-harddisk-solidstate-symbolic"⟩,
    mediaDescription := none, mediaIcon := {}, oneLiner := none,
    sortKey := some "00_drive_k" }

/-- Output of the drive presentation for `sortKeyDrive` with partition 1. -/
def driveOut1 : ObjectInfo :=
  { driveOut0 with description := some "Partition 1 of Disk" }

/-- Output of the raid presentation for `wrapRaid`, no partition. -/
def raidOut0 : ObjectInfo :=
  { path := "/r", name := some "", description := some "RAID-5 Array",
    icon := ⟨some "drive-multidisk", some "drive-multidisk-symbolic"⟩,
    mediaDescription := none, mediaIcon := {}, oneLiner := some "RAID-5 Array",
    sortKey := some "01_mdraid_u_0" }

/-- Output of the raid presentation for `wrapRaid` with partition 3. -/
def raidOut3 : ObjectInfo :=
  { raidOut0 with
    description := some "Partition 3 of 3"
    oneLiner := some "Partition 3 of 3"
    sortKey := some "01_mdraid_u_3" }

/-- Output of the block presentation for `dispatchBlock`, no partition. -/
def blockOut0 : ObjectInfo :=
  { path := "/b", name := some "/dev/x", description := some "Block Device",
    icon := ⟨some "drive-removable-media", some "drive-removable-media-symbolic"⟩,
    mediaDescription := none, mediaIcon := {},
    oneLiner := some "Block Device (/dev/x)", sortKey := some "02_block_b_0" }

/-- Output of the block presentation for `dispatchBlock` with partition 1. -/
def blockOut1 : ObjectInfo :=
  { blockOut0 with
    description := some "Partition 1 of Block Device"
    oneLiner := some "Partition 1 of Block Device (/dev/x)"
    sortKey := some "02_block_b_1" }

/-- Output of the loop presentation for `loopFixture`, no partition. -/
def loopOut0 : ObjectInfo :=
  { path := "/b", name := some "/f.img", description := some "Loop Device",
    icon := ⟨some "drive-removable-media", some "drive-removable-media-symbolic"⟩,
    mediaDescription := none, mediaIcon := {},
    oneLiner := some "Loop Device — /f.img (/dev/x)", sortKey := some "03_loop_b_0" }

/-- Output of the loop presentation for `loopFixture` with partition 1. -/
def loopOut1 : ObjectInfo :=
  { loopOut0 with
    description := some "Partition 1 of Loop Device"
    oneLiner := some "Partition 1 of Loop Device — /f.img (/dev/x)"
    sortKey := some "03_loop_b_1" }

/-! ### Helper lemmas -/

theorem resToOption_ok {α : Type} {r : Res α} {u : α} (hr : r.toOption = some u) :
    r = Res.ok u := by
  cases r <;> simp [Res.toOption] at hr
  rw [hr]

theorem lexLt_cons_lt {a b : Char} (hab : a < b) (as bs : List Char) :
    lexLt (a :: as) (b :: bs) = true := by
  simp [lexLt, hab]

theorem lexLt_cons_eq (a : Char) (as bs : List Char) :
    lexLt (a :: as) (a :: bs) = lexLt as bs := by
  simp [lexLt]

theorem lexLt_append_same (xs : List Char) {as bs : List Char}
    (h : lexLt as bs = true) : lexLt (xs ++ as) (xs ++ bs) = true := by
  induction xs with
  | nil => exact h
  | cons c cs ih => simpa [lexLt_cons_eq] using ih

theorem strLt_append_right (p : String) {a b : String}
    (h : lexLt a.data b.data = true) : strLt (p ++ a) (p ++ b) = true := by
  rw [strLt, String.data_append, String.data_append]
  exact lexLt_append_same p.data h

theorem natDigitsF_head (fuel : Nat) : ∀ n : Nat, 1 ≤ n → n ≤ fuel →
    ∃ c cs, natDigitsF fuel n = c :: cs ∧ '0' < c := by
  induction fuel with
  | zero => omega
  | succ fuel ih =>
    intro n h1 h2
    rw [natDigitsF]
    by_cases h10 : n < 10
    · refine ⟨digChar n, [], by simp [h10], ?_⟩
      interval_cases n <;> decide
    · simp only [h10, if_false]
      obtain ⟨c, cs, hc, hlt⟩ := ih (n / 10) (by omega) (by omega)
      exact ⟨c, cs ++ [digChar (n % 10)], by rw [hc]; rfl, hlt⟩

theorem natDigits_head (n : Nat) (h : 1 ≤ n) :
    ∃ c cs, natDigits n = c :: cs ∧ '0' < c :=
  natDigitsF_head n n h le_rfl

/-- Appending a larger decimal rendering after a common prefix produces a
lexicographically larger key: `p ++ "0"` sorts strictly before
`p ++ natDecStr n` for `n ≥ 1`. -/
theorem strLt_tiebreak (p : String) (n : Nat) (hn : 1 ≤ n) :
    strLt (p ++ natDecStr 0) (p ++ natDecStr n) = true := by
  obtain ⟨c, cs, hc, hlt⟩ := natDigits_head n hn
  apply strLt_append_right
  show lexLt (natDigits 0) (natDigits n) = true
  rw [hc]
  show lexLt ['0'] (c :: cs) = true
  exact lexLt_cons_lt hlt _ _

/-- Two keys starting `'0', c1, …` and `'0', c2, …` with `c1 < c2` compare
strictly, whatever follows. -/
theorem strLt_cat (c1 c2 : Char) (hc : c1 < c2) (r1 r2 : List Char) (t1 t2 : String)
    (h1 : t1.data = '0' :: c1 :: r1) (h2 : t2.data = '0' :: c2 :: r2) :
    strLt t1 t2 = true := by
  rw [strLt, h1, h2, lexLt_cons_eq]
  exact lexLt_cons_lt hc _ _

/-- Every successful `info_for_block` presentation carries the sort key
`"02_block_" ++ last path segment ++ "_" ++ partition number`, the number
being `0` without a partition context and the partition's number with one. -/
theorem info_for_block_sortKey (selfPath : ObjPath) (block : BlockIface)
    (partition : Option (ObjPath × PartitionIface))
    (oi : ObjectInfo) (h : info_for_block selfPath block partition = some oi) :
    ∃ pn, oi.sortKey = some ("02_block_" ++ lastSegBy '/' selfPath ++ "_" ++ natDecStr pn) ∧
      ((partition = none ∧ pn = 0) ∨
        ∃ pp p, partition = some (pp, p) ∧ p.number = Res.ok pn) := by
  rcases partition with _ | ⟨pp, p⟩
  case none =>
    rw [info_for_block.eq_def] at h
    simp only [Option.bind_eq_bind, Option.some_bind, Option.bind_eq_some,
      Option.some.injEq] at h
    obtain ⟨nm, hnm, h⟩ := h
    exact ⟨0, by rw [← h]; simp, Or.inl ⟨rfl, rfl⟩⟩
  case some =>
    cases hpn : p.number with
    | err =>
      rw [info_for_block.eq_def] at h
      simp [hpn, Res.toOption] at h
    | ok n =>
      rw [info_for_block.eq_def] at h
      simp only [hpn, Res.toOption, Option.bind_eq_bind, Option.some_bind,
        Option.bind_eq_some, Option.some.injEq] at h
      obtain ⟨nm, hnm, h⟩ := h
      exact ⟨n, by rw [← h]; simp, Or.inr ⟨pp, p, rfl, hpn⟩⟩

/-- Every successful `info_for_loop` presentation carries the sort key
`"03_loop_" ++ last path segment ++ "_" ++ partition number`. -/
theorem info_for_loop_sortKey (selfPath : ObjPath) (loop_proxy : LoopIface)
    (block : BlockIface) (partition : Option (ObjPath × PartitionIface))
    (oi : ObjectInfo) (h : info_for_loop selfPath loop_proxy block partition = some oi) :
    ∃ pn, oi.sortKey = some ("03_loop_" ++ lastSegBy '/' selfPath ++ "_" ++ natDecStr pn) ∧
      ((partition = none ∧ pn = 0) ∨
        ∃ pp p, partition = some (pp, p) ∧ p.number = Res.ok pn) := by
  rcases partition with _ | ⟨pp, p⟩
  case none =>
    rw [info_for_loop.eq_def] at h
    simp only [Option.bind_eq_bind, Option.some_bind, Option.bind_eq_some,
      Option.some.injEq] at h
    obtain ⟨nm, hnm, h⟩ := h
    exact ⟨0, by rw [← h]; simp, Or.inl ⟨rfl, rfl⟩⟩
  case some =>
    cases hpn : p.number with
    | err =>
      rw [info_for_loop.eq_def] at h
      simp [hpn, Res.toOption] at h
    | ok n =>
      rw [info_for_loop.eq_def] at h
      simp only [hpn, Res.toOption, Option.bind_eq_bind, Option.some_bind,
        Option.bind_eq_some, Option.some.injEq] at h
      obtain ⟨nm, hnm, h⟩ := h
      exact ⟨n, by rw [← h]; simp, Or.inr ⟨pp, p, rfl, hpn⟩⟩

/-- Every successful `info_for_mdraid` presentation carries the sort key
`"01_mdraid_" ++ uuid ++ "_" ++ partition number`. -/
theorem info_for_mdraid_sortKey (snap : Snapshot) (selfPath raidPath : ObjPath)
    (m : MDRaidIface) (partition : Option (ObjPath × PartitionIface)) (oi : ObjectInfo)
    (h : info_for_mdraid snap selfPath raidPath m partition = some oi) :
    ∃ u pn, m.uuid = Res.ok u ∧
      oi.sortKey = some ("01_mdraid_" ++ u ++ "_" ++ natDecStr pn) ∧
      ((partition = none ∧ pn = 0) ∨
        ∃ pp p, partition = some (pp, p) ∧ p.number = Res.ok pn) := by
  rcases partition with _ | ⟨pp, p⟩
  case none =>
    rw [info_for_mdraid.eq_def] at h
    simp only [Option.bind_eq_bind, Option.some_bind, Option.bind_eq_some,
      Option.some.injEq] at h
    obtain ⟨ol, hol, u, hu, h⟩ := h
    exact ⟨u, 0, resToOption_ok hu, by rw [← h]; simp, Or.inl ⟨rfl, rfl⟩⟩
  case some =>
    cases hpn : p.number with
    | err =>
      rw [info_for_mdraid.eq_def] at h
      simp [hpn, Res.toOption] at h
    | ok n =>
      rw [info_for_mdraid.eq_def] at h
      simp only [hpn, Res.toOption, Option.bind_eq_bind, Option.some_bind,
        Option.bind_eq_some, Option.some.injEq] at h
      obtain ⟨ol, hol, u, hu, h⟩ := h
      exact ⟨u, n, resToOption_ok hu, by rw [← h]; simp, Or.inr ⟨pp, p, rfl, hpn⟩⟩

/-- Every successful `info_for_drive` presentation carries the sort key
`"00_drive_" ++ the drive's sort-key property`: no partition number is
appended. -/
theorem info_for_drive_sortKey (table : List MediaData) (snap : Snapshot)
    (selfPath drivePath : ObjPath) (drive : DriveIface)
    (partition : Option (ObjPath × PartitionIface)) (oi : ObjectInfo)
    (h : info_for_drive table snap selfPath drivePath drive partition = some oi) :
    oi.sortKey = some ("00_drive_" ++ drive.sortKey.toOption.getD "") := by
  rw [info_for_drive.eq_def] at h
  rcases hm : drive.media with media | _ <;> rw [hm] at h
  · simp only [Option.map_eq_some'] at h
    obtain ⟨ol, hol, h⟩ := h
    rw [← h]
  · exact Option.noConfusion h

/-! ### Claim theorems -/

/-- C1: evaluation at the failing snapshot.  `/md0` is the running raid
device of `/r` (its `MDRaid` property points at `/r`) and `/sda` is a member
(its `MDRaidMember` property points at `/r`); yet `block_for_mdraid` and
`all_blocks_for_mdraid` (the `members=false` wrappers) return the member
`/sda`, and `members_for_mdraid` (`members=true`) returns the raid device
`/md0` — the opposite of the claim, because the unified query compares the
`MDRaid` property when `members` is true and `MDRaidMember` when false. -/
theorem C1_mdraid_query_inverted :
    (block_for_mdraid raidSnap "/r").map Prod.fst = some "/sda" ∧
    (all_blocks_for_mdraid raidSnap "/r").map Prod.fst = ["/sda"] ∧
    (members_for_mdraid raidSnap "/r").map Prod.fst = ["/md0"] ∧
    raidDeviceBlock.mdraid = Res.ok "/r" ∧ raidDeviceBlock.mdraidMember = Res.err ∧
    raidMemberBlock.mdraidMember = Res.ok "/r" ∧ raidMemberBlock.mdraid = Res.err := by
  decide

/-- C2: evaluation at the failing input.  For a RAID whose description is
`"RAID-5 Array"` and a partition context with number 3, the wrapped
description is `"Partition 3 of 3"` — the partition number is substituted
where the description belongs, because the wrapping passes
`[number, description]` to a single-placeholder template — instead of the
claimed `"Partition 3 of RAID-5 Array"`. -/
theorem C2_raid_partition_wrap_drops_description :
    (info_for_mdraid [] "/r" "/r" wrapRaid none).bind (fun oi => oi.description)
      = some "RAID-5 Array" ∧
    (info_for_mdraid [] "/r" "/r" wrapRaid (some ("/r", wrapPart))).bind
      (fun oi => oi.description) = some "Partition 3 of 3" ∧
    wrapPart.number = Res.ok 3 := by
  decide

/-- C3 counterexample: the decimal formatter renders 999 bytes as
`"1.0 KB"` (scaled by the kilobyte unit, with a scaled value below 1) and
not as a bytes-class `"999 B"`: the code has no bytes branch. -/
theorem C3_counterexample_999_scaled :
    pow10_size 999 = "1.0 KB" ∧ pow10_size 999 ≠ "999 B" := by
  have h : pow10_size 999 = "1.0 KB" := by
    rw [pow10_size]
    norm_num [KILOBYTE_FACTOR, MEGABYTE_FACTOR, GIGABYTE_FACTOR, TERABYTE_FACTOR, fmtF,
      roundNearest, Int.floor_eq_iff]
    decide
  exact ⟨h, by rw [h]; decide⟩

/-- C3 amended: decimal size formatting has no bytes unit; it selects KB for
every size below 10^6 (so the scaled value can drop below 1), MB up to 10^9,
GB up to 10^12 and TB beyond, and both 999 and 1000 render as `"1.0 KB"`. -/
theorem C3_decimal_unit_selection :
    (∀ size : Nat, size < 1000000 → ∃ r, pow10_size size = r ++ "KB") ∧
    (∀ size : Nat, 1000000 ≤ size → size < 1000000000 →
      ∃ r, pow10_size size = r ++ "MB") ∧
    (∀ size : Nat, 1000000000 ≤ size → size < 1000000000000 →
      ∃ r, pow10_size size = r ++ "GB") ∧
    (∀ size : Nat, 1000000000000 ≤ size → ∃ r, pow10_size size = r ++ "TB") ∧
    pow10_size 999 = "1.0 KB" ∧ pow10_size 1000 = "1.0 KB" := by
  refine ⟨?_, ?_, ?_, ?_, ?_, ?_⟩
  · intro size h
    have h1 : ((size : Nat) : ℚ) < MEGABYTE_FACTOR := by
      rw [MEGABYTE_FACTOR]
      exact_mod_cast h
    refine ⟨fmtF (if ((size : ℚ)) / KILOBYTE_FACTOR < 10 then 1 else 0)
      (((size : ℚ)) / KILOBYTE_FACTOR) ++ " ", ?_⟩
    rw [pow10_size]
    simp only [h1, if_pos, pgettext]
  · intro size ha hb
    have g1 : ¬ (((size : Nat) : ℚ) < MEGABYTE_FACTOR) := by
      rw [MEGABYTE_FACTOR]; push_neg; exact_mod_cast ha
    have g2 : ((size : Nat) : ℚ) < GIGABYTE_FACTOR := by
      rw [GIGABYTE_FACTOR]; exact_mod_cast hb
    refine ⟨fmtF (if ((size : ℚ)) / MEGABYTE_FACTOR < 10 then 1 else 0)
      (((size : ℚ)) / MEGABYTE_FACTOR) ++ " ", ?_⟩
    rw [pow10_size]
    simp only [g1, g2, if_pos, if_neg, if_false, pgettext]
  · intro size ha hb
    have g1 : ¬ (((size : Nat) : ℚ) < MEGABYTE_FACTOR) := by
      rw [MEGABYTE_FACTOR]; push_neg
      exact_mod_cast le_trans (by norm_num) ha
    have g2 : ¬ (((size : Nat) : ℚ) < GIGABYTE_FACTOR) := by
      rw [GIGABYTE_FACTOR]; push_neg; exact_mod_cast ha
    have g3 : ((size : Nat) : ℚ) < TERABYTE_FACTOR := by
      rw [TERABYTE_FACTOR]; exact_mod_cast hb
    refine ⟨fmtF (if ((size : ℚ)) / GIGABYTE_FACTOR < 10 then 1 else 0)
      (((size : ℚ)) / GIGABYTE_FACTOR) ++ " ", ?_⟩
    rw [pow10_size]
    simp only [g1, g2, g3, if_pos, if_neg, if_false, pgettext]
  · intro size ha
    have g1 : ¬ (((size : Nat) : ℚ) < MEGABYTE_FACTOR) := by
      rw [MEGABYTE_FACTOR]; push_neg
      exact_mod_cast le_trans (by norm_num) ha
    have g2 : ¬ (((size : Nat) : ℚ) < GIGABYTE_FACTOR) := by
      rw [GIGABYTE_FACTOR]; push_neg
      exact_mod_cast le_trans (by norm_num) ha
    have g3 : ¬ (((size : Nat) : ℚ) < TERABYTE_FACTOR) := by
      rw [TERABYTE_FACTOR]; push_neg; exact_mod_cast ha
    refine ⟨fmtF (if ((size : ℚ)) / TERABYTE_FACTOR < 10 then 1 else 0)
      (((size : ℚ)) / TERABYTE_FACTOR) ++ " ", ?_⟩
    rw [pow10_size]
    simp only [g1, g2, g3, if_neg, if_false, pgettext]
  · rw [pow10_size]
    norm_num [KILOBYTE_FACTOR, MEGABYTE_FACTOR, GIGABYTE_FACTOR, TERABYTE_FACTOR, fmtF,
      roundNearest, Int.floor_eq_iff]
    decide
  · rw [pow10_size]
    norm_num [KILOBYTE_FACTOR, MEGABYTE_FACTOR, GIGABYTE_FACTOR, TERABYTE_FACTOR, fmtF,
      roundNearest, Int.floor_eq_iff]
    decide

/-- Witness for `C3_decimal_unit_selection` at concrete sizes in each band. -/
theorem C3_decimal_unit_selection_witness :
    (∃ r, pow10_size 500 = r ++ "KB") ∧ (∃ r, pow10_size 2000000 = r ++ "MB") ∧
    (∃ r, pow10_size 3000000000 = r ++ "GB") ∧
    (∃ r, pow10_size 2000000000000 = r ++ "TB") :=
  ⟨C3_decimal_unit_selection.1 500 (by norm_num),
   C3_decimal_unit_selection.2.1 2000000 (by norm_num) (by norm_num),
   C3_decimal_unit_selection.2.2.1 3000000000 (by norm_num) (by norm_num),
   C3_decimal_unit_selection.2.2.2.1 2000000000000 (by norm_num)⟩

/-- C4: evaluation at the failing input.  `TEBIBYTE_FACTOR` is written as
`1024.0 * 1024.0 * 1024.0 * 10242.0` in the source (a typo for `1024.0`), so
2^40 bytes — which the claim says renders in TiB with a scaled value in
[1, 1024) — falls in the GiB branch and renders as `"1024 GiB"`.  The KiB
and MiB examples hold. -/
theorem C4_binary_format_tebibyte_typo :
    pow2_size (2 ^ 40) = "1024 GiB" ∧ pow2_size 1024 = "1.0 KiB" ∧
    pow2_size (2 ^ 20) = "1.0 MiB" ∧ TEBIBYTE_FACTOR ≠ 1024 * 1024 * 1024 * 1024 := by
  refine ⟨?_, ?_, ?_, by norm_num [TEBIBYTE_FACTOR]⟩
  all_goals
    rw [pow2_size]
    norm_num [KIBIBYTE_FACTOR, MEBIBYTE_FACTOR, GIBIBYTE_FACTOR, TEBIBYTE_FACTOR, fmtF,
      roundNearest, Int.floor_eq_iff]
    decide

/-- C5 counterexample: with all three hints present and non-empty, the
presentation's description is replaced by the hint but its name is not — the
name stays the synthesized `"{vendor} {model}"` string. -/
theorem C5_counterexample_name_not_replaced :
    (info_for_drive [] hintedSnap "/d" "/d" hintedDrive none).map (fun oi => oi.name)
      = some (some "ACME Disk9000") ∧
    (info_for_drive [] hintedSnap "/d" "/d" hintedDrive none).map (fun oi => oi.description)
      = some (some "Banana") ∧
    hintedBlock.hintName = Res.ok "Banana" ∧ ("ACME Disk9000" : String) ≠ "Banana" := by
  decide

/-- C5 amended: when the drive's top-level block carries non-empty name, icon
and symbolic-icon hints, the hints unconditionally replace the description,
the media description and both icon pairs (whatever the heuristics produced),
and the description equals the hint exactly; the name is NOT replaced — it
remains the synthesized `"{vendor} {model}"` string. -/
theorem C5_hint_override (table : List MediaData) (snap : Snapshot)
    (selfPath drivePath : ObjPath) (drive : DriveIface) (b : BlockIface)
    (hN hI hS : String) (oi : ObjectInfo)
    (hb : block_for_drive snap drivePath true = some b)
    (h1 : b.hintName = Res.ok hN) (h2 : hN ≠ "")
    (h3 : b.hintIconName = Res.ok hI) (h4 : hI ≠ "")
    (h5 : b.hintSymbolicIconName = Res.ok hS) (h6 : hS ≠ "")
    (hrun : info_for_drive table snap selfPath drivePath drive none = some oi) :
    oi.description = some hN ∧ oi.mediaDescription = some hN ∧
    oi.icon = ⟨some hI, some hS⟩ ∧ oi.mediaIcon = ⟨some hI, some hS⟩ ∧
    oi.name = some (drive.vendor.toOption.getD "" ++
      (if drive.vendor.toOption.getD "" = "" then "" else " ") ++
      drive.model.toOption.getD "") := by
  rw [info_for_drive.eq_def] at hrun
  rcases hm : drive.media with media | _ <;> rw [hm] at hrun
  · rw [hb] at hrun
    simp only [h1, h3, h5, h2, h4, h6, ne_eq, not_false_iff, if_true,
      Option.map_eq_some'] at hrun
    obtain ⟨ol, hol, hrec⟩ := hrun
    rw [← hrec]
    exact ⟨rfl, rfl, rfl, rfl, rfl⟩
  · exact Option.noConfusion hrun

/-- Witness for `C5_hint_override` at the hinted fixture. -/
theorem C5_hint_override_witness :
    hintedOut.description = some "Banana" ∧ hintedOut.mediaDescription = some "Banana" ∧
    hintedOut.icon = ⟨some "icon-x", some "icon-x-sym"⟩ ∧
    hintedOut.mediaIcon = ⟨some "icon-x", some "icon-x-sym"⟩ ∧
    hintedOut.name = some (hintedDrive.vendor.toOption.getD "" ++
      (if hintedDrive.vendor.toOption.getD "" = "" then "" else " ") ++
      hintedDrive.model.toOption.getD "") :=
  C5_hint_override [] hintedSnap "/d" "/d" hintedDrive hintedBlock "Banana" "icon-x"
    "icon-x-sym" hintedOut (by decide) (by decide) (by decide) (by decide) (by decide)
    (by decide) (by decide) (by decide)

/-- C6: evaluation at the failing snapshot.  One job object `/jobs/j1`
affects `/block_devices/sda`; `jobs_for_object` for that block returns one
element per matching job (and empty when nothing matches), but the element
is the *target's own path*, not a reference to the job object `/jobs/j1`. -/
theorem C6_jobs_for_object_returns_target_path :
    jobs_for_object jobSnap "/block_devices/sda" = ["/block_devices/sda"] ∧
    jobs_for_object jobSnap "/block_devices/sda" ≠ ["/jobs/j1"] ∧
    jobs_for_object jobSnap "/other" = [] := by
  decide

/-- C7: evaluation at the failing inputs.  A drive whose `media` property is
unreadable makes the drive presentation panic (`unwrap`, object_info.rs line
429); a raid whose `uuid` is unreadable panics in the sort key (line 406);
and a running raid whose device block has an unreadable preferred device
panics in the one-liner (line 344).  `none` models the panic. -/
theorem C7_presentation_panics_on_unreadable_properties :
    info_for_drive [] [] "/d" "/d" unreadableMediaDrive none = none ∧
    unreadableMediaDrive.media = Res.err ∧
    info_for_mdraid [] "/r" "/r" unreadableUuidRaid none = none ∧
    unreadableUuidRaid.uuid = Res.err ∧
    info_for_mdraid unreadablePreferredSnap "/r" "/r" unreadablePreferredRaid none = none := by
  decide

/-- C8 counterexample: a transport failure while reading whether `/b` is a
partition produces exactly the same presentation as the Partition capability
being absent — silently "not a partition", with no error surfaced — although
reading the partition (number 2) produces a different description. -/
theorem C8_counterexample_silent_partition_default :
    object_info [] [] (dispatchObj .failed) = object_info [] [] (dispatchObj .absent) ∧
    (object_info [] [] (dispatchObj .failed)).map (fun oi => oi.description)
      = some (some "Block Device") ∧
    (object_info [] [] (dispatchObj (.present onePart))).map (fun oi => oi.description)
      = some (some "Partition 1 of Block Device") := by
  decide

/-- C8 amended: in presentation dispatch any failure to acquire the Partition
interface is treated identically to the capability being absent: the object
is presented as "not a partition" and no failure is propagated, for every
snapshot and object. -/
theorem C8_partition_failure_treated_as_absent (table : List MediaData)
    (snap : Snapshot) (o : Obj) :
    object_info table snap { o with partition := .failed } =
      object_info table snap { o with partition := .absent } := by
  obtain ⟨path, block, drive, mdraid, partition, job, loopIf⟩ := o
  cases drive <;> cases mdraid <;> cases block <;> cases loopIf <;> rfl

/-- C10 counterexample: a snapshot holding only the queried drive itself
(non-empty sibling id): the claim demands the empty collection (every
*other* drive), the code returns the queried drive. -/
theorem C10_counterexample_self_included :
    drive_siblings soloSnap soloDrive = [soloDrive] ∧
    drive_siblings soloSnap soloDrive ≠ [] ∧
    soloDrive.siblingId = Res.ok "shared-sib" := by
  decide

/-- C10 amended: `drive_siblings` returns the empty collection when the
drive's sibling id is unreadable or empty; otherwise it returns exactly the
drives of the snapshot — the queried drive itself not excluded — whose
sibling id reads `Ok` and equals the queried drive's, by exact string
equality. -/
theorem C10_drive_siblings_characterization (snap : Snapshot) (drive : DriveIface) :
    (drive.siblingId = Res.err → drive_siblings snap drive = []) ∧
    (drive.siblingId = Res.ok "" → drive_siblings snap drive = []) ∧
    (∀ s, s ≠ "" → drive.siblingId = Res.ok s →
      drive_siblings snap drive =
        snap.filterMap (fun o => o.drive.ok?.bind
          (fun d => if d.siblingId = Res.ok s then some d else none))) := by
  refine ⟨fun h => by simp only [drive_siblings, h],
    fun h => by simp only [drive_siblings, h, if_pos], ?_⟩
  intro s hs hok
  simp only [drive_siblings, hok, hs, if_false]
  induction snap with
  | nil => rfl
  | cons o rest ih =>
    rw [List.foldr_cons, List.filterMap_cons]
    cases ho : o.drive with
    | present d =>
      simp only [IfaceRes.ok?, Option.some_bind]
      by_cases hd : d.siblingId = Res.ok s
      · rw [if_pos hd, if_pos hd, ih]
        rfl
      · rw [if_neg hd, if_neg hd, ih]
        rfl
    | absent =>
      simp only [IfaceRes.ok?, Option.none_bind]
      exact ih
    | failed =>
      simp only [IfaceRes.ok?, Option.none_bind]
      exact ih

/-- Witness for `C10_drive_siblings_characterization` at the solo-drive
snapshot. -/
theorem C10_drive_siblings_characterization_witness :
    drive_siblings soloSnap soloDrive =
      soloSnap.filterMap (fun o => o.drive.ok?.bind
        (fun d => if d.siblingId = Res.ok "shared-sib" then some d else none)) :=
  (C10_drive_siblings_characterization soloSnap soloDrive).2.2 "shared-sib"
    (by decide) (by decide)

/-- C9 counterexample: two drive presentations over the same drive, one for
the whole device and one for partition 1, carry the *same* sort key
`"00_drive_k"` — the drive sort key contains no partition number, so the
partition number is not a tiebreak and partition 0 does not sort before
partition 1 within the drive category. -/
theorem C9_counterexample_drive_key_ignores_partition :
    (info_for_drive [] [] "/d" "/d" sortKeyDrive none).map (fun oi => oi.sortKey)
      = some (some "00_drive_k") ∧
    (info_for_drive [] [] "/d" "/d" sortKeyDrive (some ("/p", onePart))).map
      (fun oi => oi.sortKey) = some (some "00_drive_k") ∧
    onePart.number = Res.ok 1 ∧
    strLt "00_drive_k" "00_drive_k" = false := by
  decide

/-- C9 amended: comparing synthesized sort keys lexicographically orders
every drive before every RAID array, every RAID array before every plain
block, and every plain block before every loop device; within the RAID,
block and loop categories the partition number is the final tiebreak (with
equal remaining segments, partition number 0 sorts strictly before any
partition number ≥ 1); drive sort keys however contain no partition number
at all — two presentations of the same drive carry identical keys whatever
partition context they were given. -/
theorem C9_sort_key_ordering :
    (∀ (t : List MediaData) (s1 : Snapshot) (sp1 dp1 : ObjPath) (d : DriveIface)
        (part1 : Option (ObjPath × PartitionIface)) (oiD : ObjectInfo) (kd : String)
        (s2 : Snapshot) (sp2 rp2 : ObjPath) (m : MDRaidIface)
        (part2 : Option (ObjPath × PartitionIface)) (oiM : ObjectInfo) (km : String),
        info_for_drive t s1 sp1 dp1 d part1 = some oiD →
        info_for_mdraid s2 sp2 rp2 m part2 = some oiM →
        oiD.sortKey = some kd → oiM.sortKey = some km → strLt kd km = true) ∧
    (∀ (s2 : Snapshot) (sp2 rp2 : ObjPath) (m : MDRaidIface)
        (part2 : Option (ObjPath × PartitionIface)) (oiM : ObjectInfo) (km : String)
        (sp3 : ObjPath) (b3 : BlockIface) (part3 : Option (ObjPath × PartitionIface))
        (oiB : ObjectInfo) (kb : String),
        info_for_mdraid s2 sp2 rp2 m part2 = some oiM →
        info_for_block sp3 b3 part3 = some oiB →
        oiM.sortKey = some km → oiB.sortKey = some kb → strLt km kb = true) ∧
    (∀ (sp3 : ObjPath) (b3 : BlockIface) (part3 : Option (ObjPath × PartitionIface))
        (oiB : ObjectInfo) (kb : String) (sp4 : ObjPath) (l4 : LoopIface) (b4 : BlockIface)
        (part4 : Option (ObjPath × PartitionIface)) (oiL : ObjectInfo) (kl : String),
        info_for_block sp3 b3 part3 = some oiB →
        info_for_loop sp4 l4 b4 part4 = some oiL →
        oiB.sortKey = some kb → oiL.sortKey = some kl → strLt kb kl = true) ∧
    (∀ (s : Snapshot) (sp rp : ObjPath) (m : MDRaidIface) (pp : ObjPath)
        (p : PartitionIface) (n : Nat) (oi0 oi1 : ObjectInfo) (k0 k1 : String),
        info_for_mdraid s sp rp m none = some oi0 →
        info_for_mdraid s sp rp m (some (pp, p)) = some oi1 →
        p.number = Res.ok n → 1 ≤ n →
        oi0.sortKey = some k0 → oi1.sortKey = some k1 → strLt k0 k1 = true) ∧
    (∀ (sp : ObjPath) (b : BlockIface) (pp : ObjPath) (p : PartitionIface) (n : Nat)
        (oi0 oi1 : ObjectInfo) (k0 k1 : String),
        info_for_block sp b none = some oi0 →
        info_for_block sp b (some (pp, p)) = some oi1 →
        p.number = Res.ok n → 1 ≤ n →
        oi0.sortKey = some k0 → oi1.sortKey = some k1 → strLt k0 k1 = true) ∧
    (∀ (sp : ObjPath) (l : LoopIface) (b : BlockIface) (pp : ObjPath) (p : PartitionIface)
        (n : Nat) (oi0 oi1 : ObjectInfo) (k0 k1 : String),
        info_for_loop sp l b none = some oi0 →
        info_for_loop sp l b (some (pp, p)) = some oi1 →
        p.number = Res.ok n → 1 ≤ n →
        oi0.sortKey = some k0 → oi1.sortKey = some k1 → strLt k0 k1 = true) ∧
    (∀ (t : List MediaData) (s : Snapshot) (sp dp : ObjPath) (d : DriveIface)
        (part : Option (ObjPath × PartitionIface)) (oi0 oi1 : ObjectInfo),
        info_for_drive t s sp dp d none = some oi0 →
        info_for_drive t s sp dp d part = some oi1 → oi0.sortKey = oi1.sortKey) := by
  refine ⟨?_, ?_, ?_, ?_, ?_, ?_, ?_⟩
  · intro t s1 sp1 dp1 d part1 oiD kd s2 sp2 rp2 m part2 oiM km hD hM hkd hkm
    have h1 := info_for_drive_sortKey t s1 sp1 dp1 d part1 oiD hD
    obtain ⟨u, pn, _, h2, _⟩ := info_for_mdraid_sortKey s2 sp2 rp2 m part2 oiM hM
    rw [hkd] at h1
    rw [hkm] at h2
    obtain rfl := (Option.some.injEq _ _).mp h1
    obtain rfl := (Option.some.injEq _ _).mp h2
    refine strLt_cat '0' '1' (by decide)
      ("_drive_".data ++ (d.sortKey.toOption.getD "").data)
      ((("_mdraid_".data ++ u.data) ++ "_".data) ++ (natDecStr pn).data) _ _ ?_ ?_
    · rw [String.data_append]; rfl
    · rw [String.data_append, String.data_append, String.data_append]; rfl
  · intro s2 sp2 rp2 m part2 oiM km sp3 b3 part3 oiB kb hM hB hkm hkb
    obtain ⟨u, pn, _, h2, _⟩ := info_for_mdraid_sortKey s2 sp2 rp2 m part2 oiM hM
    obtain ⟨pn3, h3, _⟩ := info_for_block_sortKey sp3 b3 part3 oiB hB
    rw [hkm] at h2
    rw [hkb] at h3
    obtain rfl := (Option.some.injEq _ _).mp h2
    obtain rfl := (Option.some.injEq _ _).mp h3
    refine strLt_cat '1' '2' (by decide)
      ((("_mdraid_".data ++ u.data) ++ "_".data) ++ (natDecStr pn).data)
      ((("_block_".data ++ (lastSegBy '/' sp3).data) ++ "_".data) ++
        (natDecStr pn3).data) _ _ ?_ ?_
    · rw [String.data_append, String.data_append, String.data_append]; rfl
    · rw [String.data_append, String.data_append, String.data_append]; rfl
  · intro sp3 b3 part3 oiB kb sp4 l4 b4 part4 oiL kl hB hL hkb hkl
    obtain ⟨pn3, h3, _⟩ := info_for_block_sortKey sp3 b3 part3 oiB hB
    obtain ⟨pn4, h4, _⟩ := info_for_loop_sortKey sp4 l4 b4 part4 oiL hL
    rw [hkb] at h3
    rw [hkl] at h4
    obtain rfl := (Option.some.injEq _ _).mp h3
    obtain rfl := (Option.some.injEq _ _).mp h4
    refine strLt_cat '2' '3' (by decide)
      ((("_block_".data ++ (lastSegBy '/' sp3).data) ++ "_".data) ++ (natDecStr pn3).data)
      ((("_loop_".data ++ (lastSegBy '/' sp4).data) ++ "_".data) ++
        (natDecStr pn4).data) _ _ ?_ ?_
    · rw [String.data_append, String.data_append, String.data_append]; rfl
    · rw [String.data_append, String.data_append, String.data_append]; rfl
  · intro s sp rp m pp p n oi0 oi1 k0 k1 h0 h1 hpn hn1 hk0 hk1
    obtain ⟨u0, pn0, hu0, hs0, hor0⟩ := info_for_mdraid_sortKey s sp rp m none oi0 h0
    obtain ⟨u1, pn1, hu1, hs1, hor1⟩ :=
      info_for_mdraid_sortKey s sp rp m (some (pp, p)) oi1 h1
    have hpn0 : pn0 = 0 := by
      rcases hor0 with ⟨_, h⟩ | ⟨pp', p', h, _⟩
      · exact h
      · exact Option.noConfusion h
    have hpn1 : pn1 = n := by
      rcases hor1 with ⟨h, _⟩ | ⟨pp', p', heq, hnum⟩
      · exact Option.noConfusion h
      · simp only [Option.some.injEq, Prod.mk.injEq] at heq
        obtain ⟨rfl, rfl⟩ := heq
        rw [hpn] at hnum
        exact ((Res.ok.injEq _ _).mp hnum).symm
    have huu : u1 = u0 := by
      rw [hu0] at hu1
      exact ((Res.ok.injEq _ _).mp hu1.symm)
    rw [hk0] at hs0
    rw [hk1] at hs1
    obtain rfl := (Option.some.injEq _ _).mp hs0
    obtain rfl := (Option.some.injEq _ _).mp hs1
    rw [hpn0, hpn1, huu]
    exact strLt_tiebreak ("01_mdraid_" ++ u0 ++ "_") n hn1
  · intro sp b pp p n oi0 oi1 k0 k1 h0 h1 hpn hn1 hk0 hk1
    obtain ⟨pn0, hs0, hor0⟩ := info_for_block_sortKey sp b none oi0 h0
    obtain ⟨pn1, hs1, hor1⟩ := info_for_block_sortKey sp b (some (pp, p)) oi1 h1
    have hpn0 : pn0 = 0 := by
      rcases hor0 with ⟨_, h⟩ | ⟨pp', p', h, _⟩
      · exact h
      · exact Option.noConfusion h
    have hpn1 : pn1 = n := by
      rcases hor1 with ⟨h, _⟩ | ⟨pp', p', heq, hnum⟩
      · exact Option.noConfusion h
      · simp only [Option.some.injEq, Prod.mk.injEq] at heq
        obtain ⟨rfl, rfl⟩ := heq
        rw [hpn] at hnum
        exact ((Res.ok.injEq _ _).mp hnum).symm
    rw [hk0] at hs0
    rw [hk1] at hs1
    obtain rfl := (Option.some.injEq _ _).mp hs0
    obtain rfl := (Option.some.injEq _ _).mp hs1
    rw [hpn0, hpn1]
    exact strLt_tiebreak ("02_block_" ++ lastSegBy '/' sp ++ "_") n hn1
  · intro sp l b pp p n oi0 oi1 k0 k1 h0 h1 hpn hn1 hk0 hk1
    obtain ⟨pn0, hs0, hor0⟩ := info_for_loop_sortKey sp l b none oi0 h0
    obtain ⟨pn1, hs1, hor1⟩ := info_for_loop_sortKey sp l b (some (pp, p)) oi1 h1
    have hpn0 : pn0 = 0 := by
      rcases hor0 with ⟨_, h⟩ | ⟨pp', p', h, _⟩
      · exact h
      · exact Option.noConfusion h
    have hpn1 : pn1 = n := by
      rcases hor1 with ⟨h, _⟩ | ⟨pp', p', heq, hnum⟩
      · exact Option.noConfusion h
      · simp only [Option.some.injEq, Prod.mk.injEq] at heq
        obtain ⟨rfl, rfl⟩ := heq
        rw [hpn] at hnum
        exact ((Res.ok.injEq _ _).mp hnum).symm
    rw [hk0] at hs0
    rw [hk1] at hs1
    obtain rfl := (Option.some.injEq _ _).mp hs0
    obtain rfl := (Option.some.injEq _ _).mp hs1
    rw [hpn0, hpn1]
    exact strLt_tiebreak ("03_loop_" ++ lastSegBy '/' sp ++ "_") n hn1
  · intro t s sp dp d part oi0 oi1 h0 h1
    rw [info_for_drive_sortKey t s sp dp d none oi0 h0,
        info_for_drive_sortKey t s sp dp d part oi1 h1]

/-- Witness for `C9_sort_key_ordering` at concrete presentations of each
category. -/
theorem C9_sort_key_ordering_witness :
    strLt "00_drive_k" "01_mdraid_u_0" = true ∧
    strLt "01_mdraid_u_0" "02_block_b_0" = true ∧
    strLt "02_block_b_0" "03_loop_b_0" = true ∧
    strLt "01_mdraid_u_0" "01_mdraid_u_3" = true ∧
    strLt "02_block_b_0" "02_block_b_1" = true ∧
    strLt "03_loop_b_0" "03_loop_b_1" = true ∧
    driveOut0.sortKey = driveOut1.sortKey :=
  ⟨C9_sort_key_ordering.1 [] [] "/d" "/d" sortKeyDrive none driveOut0 "00_drive_k"
      [] "/r" "/r" wrapRaid none raidOut0 "01_mdraid_u_0"
      (by decide) (by decide) (by decide) (by decide),
   C9_sort_key_ordering.2.1 [] "/r" "/r" wrapRaid none raidOut0 "01_mdraid_u_0"
      "/b" dispatchBlock none blockOut0 "02_block_b_0"
      (by decide) (by decide) (by decide) (by decide),
   C9_sort_key_ordering.2.2.1 "/b" dispatchBlock none blockOut0 "02_block_b_0"
      "/b" loopFixture dispatchBlock none loopOut0 "03_loop_b_0"
      (by decide) (by decide) (by decide) (by decide),
   C9_sort_key_ordering.2.2.2.1 [] "/r" "/r" wrapRaid "/p" wrapPart 3 raidOut0 raidOut3
      "01_mdraid_u_0" "01_mdraid_u_3" (by decide) (by decide) (by decide) (by decide)
      (by decide) (by decide),
   C9_sort_key_ordering.2.2.2.2.1 "/b" dispatchBlock "/p" onePart 1 blockOut0 blockOut1
      "02_block_b_0" "02_block_b_1" (by decide) (by decide) (by decide) (by decide)
      (by decide) (by decide),
   C9_sort_key_ordering.2.2.2.2.2.1 "/b" loopFixture dispatchBlock "/p" onePart 1
      loopOut0 loopOut1 "03_loop_b_0" "03_loop_b_1" (by decide) (by decide) (by decide)
      (by decide) (by decide) (by decide),
   C9_sort_key_ordering.2.2.2.2.2.2 [] [] "/d" "/d" sortKeyDrive (some ("/p", onePart))
      driveOut0 driveOut1 (by decide) (by decide)⟩
